import Mathlib

/-!
Verification of the sunrise-sunset scheduler (src/src/main.ts).

Shallow embedding conventions:
- Instants are epoch milliseconds, modelled as `Int` (the value of
  `Date.getTime()`); `Date.now()` is passed in as the parameter `now`.
- A `setTimeout` handle is modelled by the fire instant of the pending
  timer (`now + delay = instant`); `clearTimeout` and a never-armed field
  are both `none`.
- The position-change subscription handle is modelled by a `Bool`
  (`true` while a listener is registered).
- `SunCalc.getTimes` is an external pure library; its results for the
  three window days are passed to `setupSensor` as explicit
  `GetTimesResult` values, so the embedding quantifies over every
  possible provider output.
- `storageSettings.values.mode` is a string read from storage, modelled
  as `Option String` (absent = `none`); the JavaScript truthiness test
  `!mode` also rejects the empty string, captured by `jsFalsy`.
- `storageSettings.values.linkedPositionSensor` is only tested for
  truthiness and handed to the provider, so it is modelled as a `Bool`
  recording whether a device is linked.
-/

/-- The four fields of `SunCalc.GetTimesResult` the program reads, as
epoch-millisecond instants. -/
structure GetTimesResult where
  sunrise : Int
  sunriseEnd : Int
  sunsetStart : Int
  sunset : Int
deriving Repr, DecidableEq

/-- The mutable fields of `SunriseSunsetSensor`: the position listener
registration, the two timeout handles, and the `binaryState` exposed to
consumers (the spec calls it activeState). -/
structure ScheduleState where
  positionListener : Bool
  startTimeout : Option Int
  endTimeout : Option Int
  binaryState : Bool
deriving Repr, DecidableEq

/-- The configuration read from `storageSettings.values`. -/
structure Config where
  linkedPositionSensor : Bool
  mode : Option String
deriving Repr, DecidableEq

/-- JavaScript truthiness test `!x` on a stored string: absent or empty
strings are falsy. -/
def jsFalsy : Option String → Bool
  | none => true
  | some str => str.isEmpty

/-- `release()`: removes the position listener and clears both timeouts
(lines 76-80 of main.ts). -/
def release (s : ScheduleState) : ScheduleState :=
  { s with positionListener := false, startTimeout := none, endTimeout := none }

/-- `doSunrise(times)` (lines 82-98 of main.ts): arms the start timer at
`times.sunrise` and the end timer at `times.sunriseEnd` when each is
strictly after `now`, returning whether at least one was armed. -/
def doSunrise (now : Int) (times : GetTimesResult) (s : ScheduleState) :
    ScheduleState × Bool :=
  let hasEvent := false
  let r1 :=
    if times.sunrise > now then
      ({ s with startTimeout := some times.sunrise }, true)
    else (s, hasEvent)
  let r2 :=
    if times.sunriseEnd > now then
      ({ r1.1 with endTimeout := some times.sunriseEnd }, true)
    else (r1.1, r1.2)
  r2

/-- `doSunset(times)` (lines 100-116 of main.ts): arms the start timer at
`times.sunsetStart` and the end timer at `times.sunset` when each is
strictly after `now`, returning whether at least one was armed. -/
def doSunset (now : Int) (times : GetTimesResult) (s : ScheduleState) :
    ScheduleState × Bool :=
  let hasEvent := false
  let r1 :=
    if times.sunsetStart > now then
      ({ s with startTimeout := some times.sunsetStart }, true)
    else (s, hasEvent)
  let r2 :=
    if times.sunset > now then
      ({ r1.1 with endTimeout := some times.sunset }, true)
    else (r1.1, r1.2)
  r2

/-- `setupSensor()` (lines 46-74 of main.ts), the reschedule operation:
release, bail out on falsy configuration, subscribe to the position
sensor, then arm from the three-day window with short-circuit
disjunction.  The sunset branch calls `doSunrise` on the third day,
exactly as line 72 of the source does. -/
def setupSensor (cfg : Config) (todayTimes tomorrowTimes dayAfterTomorrowTimes : GetTimesResult)
    (now : Int) (s : ScheduleState) : ScheduleState :=
  let s0 := release s
  if !cfg.linkedPositionSensor || jsFalsy cfg.mode then
    s0
  else
    let s1 := { s0 with positionListener := true }
    if cfg.mode = some "sunrise" then
      let r0 := doSunrise now todayTimes s1
      if r0.2 then r0.1
      else
        let r1 := doSunrise now tomorrowTimes r0.1
        if r1.2 then r1.1
        else (doSunrise now dayAfterTomorrowTimes r1.1).1
    else
      let r0 := doSunset now todayTimes s1
      if r0.2 then r0.1
      else
        let r1 := doSunset now tomorrowTimes r0.1
        if r1.2 then r1.1
        else (doSunrise now dayAfterTomorrowTimes r1.1).1

/-- `trigger()` (lines 118-120 of main.ts): the start-timer handler. -/
def trigger (s : ScheduleState) : ScheduleState :=
  { s with binaryState := true }

/-- `untrigger()` (lines 122-125 of main.ts): the end-timer handler sets
`binaryState` to false and calls `setupSensor` again; the fresh window
times and `now` at that later moment are parameters of the embedding. -/
def untrigger (cfg : Config) (t0 t1 t2 : GetTimesResult) (now : Int)
    (s : ScheduleState) : ScheduleState :=
  setupSensor cfg t0 t1 t2 now { s with binaryState := false }

/-- An optional armed timer is strictly in the future (vacuously true when
no timer is armed). -/
def isFuture (now : Int) : Option Int → Bool
  | none => true
  | some t => decide (now < t)

/-- Both armed timers of a state are strictly in the future. -/
def futureArmed (now : Int) (s : ScheduleState) : Prop :=
  isFuture now s.startTimeout = true ∧ isFuture now s.endTimeout = true

/-- A day whose four instants all lie in the past of `now = 100`. -/
def pastTimes : GetTimesResult := ⟨0, 0, 0, 0⟩

/-- A day whose four instants all lie in the future of `now = 100`, with
distinct sunrise and sunset pairs. -/
def day2Times : GetTimesResult := ⟨200, 300, 400, 500⟩

/-- A configured sensor in sunset mode. -/
def cfgSunset : Config := ⟨true, some "sunset"⟩

/-- A configured sensor in sunrise mode. -/
def cfgSunrise : Config := ⟨true, some "sunrise"⟩

/-- A linked sensor whose stored mode is not one of the two choices. -/
def cfgInvalidMode : Config := ⟨true, some "solar"⟩

/-- A fresh, never-armed state. -/
def emptyState : ScheduleState := ⟨false, none, none, false⟩

/-- The state reached inside `setupSensor` right after releasing and
subscribing to the position sensor, before any arming is attempted. -/
def armBase (s : ScheduleState) : ScheduleState := ⟨true, none, none, s.binaryState⟩

/-- All four instants of a day lie at or before `now`: the day yields no
future event in either mode. -/
def allPast (now : Int) (t : GetTimesResult) : Prop :=
  t.sunrise ≤ now ∧ t.sunriseEnd ≤ now ∧ t.sunsetStart ≤ now ∧ t.sunset ≤ now

lemma doSunrise_eq (now : Int) (t : GetTimesResult) (s : ScheduleState) :
    doSunrise now t s =
      (⟨s.positionListener,
        if t.sunrise > now then some t.sunrise else s.startTimeout,
        if t.sunriseEnd > now then some t.sunriseEnd else s.endTimeout,
        s.binaryState⟩,
       decide (t.sunrise > now) || decide (t.sunriseEnd > now)) := by
  simp only [doSunrise]
  split_ifs with h1 h2 h2 <;> simp_all

lemma doSunset_eq (now : Int) (t : GetTimesResult) (s : ScheduleState) :
    doSunset now t s =
      (⟨s.positionListener,
        if t.sunsetStart > now then some t.sunsetStart else s.startTimeout,
        if t.sunset > now then some t.sunset else s.endTimeout,
        s.binaryState⟩,
       decide (t.sunsetStart > now) || decide (t.sunset > now)) := by
  simp only [doSunset]
  split_ifs with h1 h2 h2 <;> simp_all

lemma release_eq (s : ScheduleState) :
    release s = ⟨false, none, none, s.binaryState⟩ := rfl

lemma doSunrise_start (now : Int) (t : GetTimesResult) (s : ScheduleState) :
    (doSunrise now t s).1.startTimeout =
      if t.sunrise > now then some t.sunrise else s.startTimeout := by
  simp [doSunrise_eq]

lemma doSunrise_end (now : Int) (t : GetTimesResult) (s : ScheduleState) :
    (doSunrise now t s).1.endTimeout =
      if t.sunriseEnd > now then some t.sunriseEnd else s.endTimeout := by
  simp [doSunrise_eq]

lemma doSunrise_snd (now : Int) (t : GetTimesResult) (s : ScheduleState) :
    (doSunrise now t s).2 =
      (decide (t.sunrise > now) || decide (t.sunriseEnd > now)) := by
  simp [doSunrise_eq]

lemma doSunrise_pos (now : Int) (t : GetTimesResult) (s : ScheduleState) :
    (doSunrise now t s).1.positionListener = s.positionListener := by
  simp [doSunrise_eq]

lemma doSunrise_bin (now : Int) (t : GetTimesResult) (s : ScheduleState) :
    (doSunrise now t s).1.binaryState = s.binaryState := by
  simp [doSunrise_eq]

lemma doSunset_start (now : Int) (t : GetTimesResult) (s : ScheduleState) :
    (doSunset now t s).1.startTimeout =
      if t.sunsetStart > now then some t.sunsetStart else s.startTimeout := by
  simp [doSunset_eq]

lemma doSunset_end (now : Int) (t : GetTimesResult) (s : ScheduleState) :
    (doSunset now t s).1.endTimeout =
      if t.sunset > now then some t.sunset else s.endTimeout := by
  simp [doSunset_eq]

lemma doSunset_snd (now : Int) (t : GetTimesResult) (s : ScheduleState) :
    (doSunset now t s).2 =
      (decide (t.sunsetStart > now) || decide (t.sunset > now)) := by
  simp [doSunset_eq]

lemma doSunset_pos (now : Int) (t : GetTimesResult) (s : ScheduleState) :
    (doSunset now t s).1.positionListener = s.positionListener := by
  simp [doSunset_eq]

lemma doSunset_bin (now : Int) (t : GetTimesResult) (s : ScheduleState) :
    (doSunset now t s).1.binaryState = s.binaryState := by
  simp [doSunset_eq]

lemma setupSensor_congr (cfg : Config) (t0 t1 t2 : GetTimesResult) (now : Int)
    (s s' : ScheduleState) (h : release s = release s') :
    setupSensor cfg t0 t1 t2 now s = setupSensor cfg t0 t1 t2 now s' := by
  simp only [setupSensor]
  rw [h]

lemma futureArmed_doSunrise (now : Int) (t : GetTimesResult) (s : ScheduleState)
    (h : futureArmed now s) : futureArmed now (doSunrise now t s).1 := by
  obtain ⟨h1, h2⟩ := h
  refine ⟨?_, ?_⟩
  · rw [doSunrise_start]
    split_ifs with hs
    · simp [isFuture, hs]
    · exact h1
  · rw [doSunrise_end]
    split_ifs with hs
    · simp [isFuture, hs]
    · exact h2

lemma futureArmed_doSunset (now : Int) (t : GetTimesResult) (s : ScheduleState)
    (h : futureArmed now s) : futureArmed now (doSunset now t s).1 := by
  obtain ⟨h1, h2⟩ := h
  refine ⟨?_, ?_⟩
  · rw [doSunset_start]
    split_ifs with hs
    · simp [isFuture, hs]
    · exact h1
  · rw [doSunset_end]
    split_ifs with hs
    · simp [isFuture, hs]
    · exact h2

lemma setupSensor_bin (cfg : Config) (t0 t1 t2 : GetTimesResult) (now : Int)
    (s : ScheduleState) :
    (setupSensor cfg t0 t1 t2 now s).binaryState = s.binaryState := by
  simp only [setupSensor]
  split_ifs <;> simp [doSunrise_bin, doSunset_bin, release_eq]

/-- Claim C2: for every configuration, window, and current instant, each of
the two instants of a day is considered independently and is armed only
when strictly greater than `now`; after `setupSensor` no armed timer has a
fire instant at or before `now`. -/
theorem claim2_armed_timers_strictly_future (cfg : Config)
    (t0 t1 t2 : GetTimesResult) (now : Int) (s : ScheduleState) :
    futureArmed now (setupSensor cfg t0 t1 t2 now s) := by
  have hrel : futureArmed now (release s) := ⟨rfl, rfl⟩
  have hbase : futureArmed now ({ release s with positionListener := true }) := ⟨rfl, rfl⟩
  simp only [setupSensor]
  split
  · exact hrel
  · split
    · split
      · exact futureArmed_doSunrise _ _ _ hbase
      · split
        · exact futureArmed_doSunrise _ _ _ (futureArmed_doSunrise _ _ _ hbase)
        · exact futureArmed_doSunrise _ _ _
            (futureArmed_doSunrise _ _ _ (futureArmed_doSunrise _ _ _ hbase))
    · split
      · exact futureArmed_doSunset _ _ _ hbase
      · split
        · exact futureArmed_doSunset _ _ _ (futureArmed_doSunset _ _ _ hbase)
        · exact futureArmed_doSunrise _ _ _
            (futureArmed_doSunset _ _ _ (futureArmed_doSunset _ _ _ hbase))

/-- Claim C7: the start-timer handler sets activeState to true and changes
nothing else: timers and position subscription are untouched and no
reschedule happens. -/
theorem claim7_trigger_only_sets_active (s : ScheduleState) :
    (trigger s).binaryState = true ∧
    (trigger s).startTimeout = s.startTimeout ∧
    (trigger s).endTimeout = s.endTimeout ∧
    (trigger s).positionListener = s.positionListener :=
  ⟨rfl, rfl, rfl, rfl⟩

/-- Claim C4: `release` cancels both timers and drops the position
subscription, and the outcome of a later `setupSensor` is independent of
whatever timers or subscription were armed before, so superseded timers
can never fire. -/
theorem claim4_disarm_before_arm (cfg : Config) (t0 t1 t2 : GetTimesResult)
    (now : Int) (s : ScheduleState) (a b : Option Int) (p : Bool) :
    (release s).startTimeout = none ∧
    (release s).endTimeout = none ∧
    (release s).positionListener = false ∧
    setupSensor cfg t0 t1 t2 now
        { s with positionListener := p, startTimeout := a, endTimeout := b } =
      setupSensor cfg t0 t1 t2 now s :=
  ⟨rfl, rfl, rfl, setupSensor_congr _ _ _ _ _ _ _ rfl⟩

/-- Claim C8: with the configuration, window times and current instant
fixed, running `setupSensor` twice yields exactly the state of running it
once: the second run disarms what the first armed and re-arms identical
instants. -/
theorem claim8_reschedule_idempotent (cfg : Config) (t0 t1 t2 : GetTimesResult)
    (now : Int) (s : ScheduleState) :
    setupSensor cfg t0 t1 t2 now (setupSensor cfg t0 t1 t2 now s) =
      setupSensor cfg t0 t1 t2 now s := by
  apply setupSensor_congr
  rw [release_eq, release_eq, setupSensor_bin]

lemma doSunrise_not_yield (now : Int) (t : GetTimesResult) (s : ScheduleState)
    (h : (doSunrise now t s).2 = false) : (doSunrise now t s).1 = s := by
  rw [doSunrise_snd] at h
  simp only [Bool.or_eq_false_iff, decide_eq_false_iff_not] at h
  obtain ⟨h1, h2⟩ := h
  simp [doSunrise_eq, h1, h2]

lemma doSunset_not_yield (now : Int) (t : GetTimesResult) (s : ScheduleState)
    (h : (doSunset now t s).2 = false) : (doSunset now t s).1 = s := by
  rw [doSunset_snd] at h
  simp only [Bool.or_eq_false_iff, decide_eq_false_iff_not] at h
  obtain ⟨h1, h2⟩ := h
  simp [doSunset_eq, h1, h2]

lemma doSunrise_past (now : Int) (t : GetTimesResult) (s : ScheduleState)
    (h1 : t.sunrise ≤ now) (h2 : t.sunriseEnd ≤ now) :
    doSunrise now t s = (s, false) := by
  simp [doSunrise_eq, not_lt.mpr h1, not_lt.mpr h2]

lemma doSunset_past (now : Int) (t : GetTimesResult) (s : ScheduleState)
    (h1 : t.sunsetStart ≤ now) (h2 : t.sunset ≤ now) :
    doSunset now t s = (s, false) := by
  simp [doSunset_eq, not_lt.mpr h1, not_lt.mpr h2]

lemma setupSensor_indep_aux (cfg : Config) (t0 t1 t2 : GetTimesResult) (now : Int)
    (s s' : ScheduleState) :
    (setupSensor cfg t0 t1 t2 now s).startTimeout
        = (setupSensor cfg t0 t1 t2 now s').startTimeout ∧
    (setupSensor cfg t0 t1 t2 now s).endTimeout
        = (setupSensor cfg t0 t1 t2 now s').endTimeout ∧
    (setupSensor cfg t0 t1 t2 now s).positionListener
        = (setupSensor cfg t0 t1 t2 now s').positionListener := by
  refine ⟨?_, ?_, ?_⟩ <;>
  · simp only [setupSensor, release_eq, doSunrise_snd, doSunset_snd]
    split_ifs <;>
      simp [doSunrise_start, doSunrise_end, doSunrise_pos,
        doSunset_start, doSunset_end, doSunset_pos]

/-- Claim C6: the end-timer handler sets activeState to false and then
reruns the scheduling computation, arming exactly what a direct
`setupSensor` call would arm; the start-timer handler performs no
re-arming, so the end handler is the only timer path that reschedules. -/
theorem claim6_end_handler_clears_and_reschedules (cfg : Config)
    (t0 t1 t2 : GetTimesResult) (now : Int) (s : ScheduleState) :
    (untrigger cfg t0 t1 t2 now s).binaryState = false ∧
    (untrigger cfg t0 t1 t2 now s).startTimeout
        = (setupSensor cfg t0 t1 t2 now s).startTimeout ∧
    (untrigger cfg t0 t1 t2 now s).endTimeout
        = (setupSensor cfg t0 t1 t2 now s).endTimeout ∧
    (untrigger cfg t0 t1 t2 now s).positionListener
        = (setupSensor cfg t0 t1 t2 now s).positionListener ∧
    (trigger s).startTimeout = s.startTimeout ∧
    (trigger s).endTimeout = s.endTimeout ∧
    (trigger s).positionListener = s.positionListener := by
  refine ⟨?_, ?_, ?_, ?_, rfl, rfl, rfl⟩
  · rw [untrigger, setupSensor_bin]
  · exact (setupSensor_indep_aux cfg t0 t1 t2 now _ s).1
  · exact (setupSensor_indep_aux cfg t0 t1 t2 now _ s).2.1
  · exact (setupSensor_indep_aux cfg t0 t1 t2 now _ s).2.2

/-- Claim C9: when no day of the window has any instant strictly after
`now`, `setupSensor` arms no timer and leaves activeState untouched, with
no exception path; the scheduler simply stays disarmed. -/
theorem claim9_exhausted_window_stays_disarmed (cfg : Config)
    (t0 t1 t2 : GetTimesResult) (now : Int) (s : ScheduleState)
    (h0 : allPast now t0) (h1 : allPast now t1) (h2 : allPast now t2) :
    (setupSensor cfg t0 t1 t2 now s).startTimeout = none ∧
    (setupSensor cfg t0 t1 t2 now s).endTimeout = none ∧
    (setupSensor cfg t0 t1 t2 now s).binaryState = s.binaryState := by
  obtain ⟨h0a, h0b, h0c, h0d⟩ := h0
  obtain ⟨h1a, h1b, h1c, h1d⟩ := h1
  obtain ⟨h2a, h2b, h2c, h2d⟩ := h2
  refine ⟨?_, ?_, setupSensor_bin _ _ _ _ _ _⟩ <;>
  · simp only [setupSensor, release_eq,
      doSunrise_past now t0 _ h0a h0b, doSunset_past now t0 _ h0c h0d,
      doSunrise_past now t1 _ h1a h1b, doSunset_past now t1 _ h1c h1d,
      doSunrise_past now t2 _ h2a h2b, doSunset_past now t2 _ h2c h2d]
    split_ifs <;> rfl

/-- Witness for claim C9 at a concrete exhausted window. -/
theorem claim9_witness :
    (setupSensor cfgSunrise pastTimes pastTimes pastTimes 100 emptyState).startTimeout = none ∧
    (setupSensor cfgSunrise pastTimes pastTimes pastTimes 100 emptyState).endTimeout = none ∧
    (setupSensor cfgSunrise pastTimes pastTimes pastTimes 100 emptyState).binaryState
        = emptyState.binaryState :=
  claim9_exhausted_window_stays_disarmed cfgSunrise pastTimes pastTimes pastTimes 100
    emptyState ⟨by decide, by decide, by decide, by decide⟩
    ⟨by decide, by decide, by decide, by decide⟩
    ⟨by decide, by decide, by decide, by decide⟩

/-- Claim C10: under the provider invariant that the start instant of a day is
at or before its end instant, whenever arming a day (from the freshly
released state) arms both timers, the start fire instant is at or before
the end fire instant, and the start delay at or before the end delay. -/
theorem claim10_start_not_after_end (now : Int) (t : GetTimesResult)
    (s : ScheduleState) (hs : s.startTimeout = none) (he : s.endTimeout = none) :
    (t.sunrise ≤ t.sunriseEnd →
      ∀ a b : Int, (doSunrise now t s).1.startTimeout = some a →
        (doSunrise now t s).1.endTimeout = some b →
        a ≤ b ∧ a - now ≤ b - now) ∧
    (t.sunsetStart ≤ t.sunset →
      ∀ a b : Int, (doSunset now t s).1.startTimeout = some a →
        (doSunset now t s).1.endTimeout = some b →
        a ≤ b ∧ a - now ≤ b - now) := by
  constructor
  · intro hinv a b ha hb
    rw [doSunrise_start, hs] at ha
    rw [doSunrise_end, he] at hb
    split_ifs at ha hb with hc1 hc2
    · injection ha with ha
      injection hb with hb
      subst ha
      subst hb
      exact ⟨hinv, sub_le_sub_right hinv now⟩
  · intro hinv a b ha hb
    rw [doSunset_start, hs] at ha
    rw [doSunset_end, he] at hb
    split_ifs at ha hb with hc1 hc2
    · injection ha with ha
      injection hb with hb
      subst ha
      subst hb
      exact ⟨hinv, sub_le_sub_right hinv now⟩

/-- Witness for claim C10 at a concrete day with both timers armed. -/
theorem claim10_witness :
    (200 : Int) ≤ 300 ∧ (200 : Int) - 100 ≤ 300 - 100 :=
  (claim10_start_not_after_end 100 day2Times emptyState rfl rfl).1 (by decide)
    200 300 (by decide) (by decide)

/-- Counterexample to claim C5: a linked sensor with the invalid stored
mode string "solar" (not one of the two choices) is not quiescent: the
sensor subscribes and arms the sunset pair of the first day. -/
theorem claim5_counterexample_invalid_mode_arms :
    (setupSensor cfgInvalidMode day2Times pastTimes pastTimes 100 emptyState).startTimeout
        = some 400 ∧
    (setupSensor cfgInvalidMode day2Times pastTimes pastTimes 100 emptyState).endTimeout
        = some 500 ∧
    (setupSensor cfgInvalidMode day2Times pastTimes pastTimes 100 emptyState).positionListener
        = true := by
  decide

/-- Claim C5 as amended: when the linked position sensor or the mode is
absent (falsy), `setupSensor` only releases: no timers armed, no
subscription held, activeState untouched; a present mode outside the two
choices is instead treated as sunset. -/
theorem claim5_amended_falsy_config_quiescent (cfg : Config)
    (t0 t1 t2 : GetTimesResult) (now : Int) (s : ScheduleState)
    (h : cfg.linkedPositionSensor = false ∨ jsFalsy cfg.mode = true) :
    setupSensor cfg t0 t1 t2 now s = release s ∧
    (setupSensor cfg t0 t1 t2 now s).startTimeout = none ∧
    (setupSensor cfg t0 t1 t2 now s).endTimeout = none ∧
    (setupSensor cfg t0 t1 t2 now s).positionListener = false ∧
    (setupSensor cfg t0 t1 t2 now s).binaryState = s.binaryState := by
  have hc : (!cfg.linkedPositionSensor || jsFalsy cfg.mode) = true := by
    rcases h with h | h <;> simp [h]
  have he : setupSensor cfg t0 t1 t2 now s = release s := by
    simp only [setupSensor, hc, if_true]
  refine ⟨he, ?_, ?_, ?_, ?_⟩ <;> rw [he] <;> rfl

/-- Witness for the amended claim C5 with the mode absent. -/
theorem claim5_amended_witness :
    setupSensor ⟨true, none⟩ day2Times pastTimes pastTimes 100 emptyState
      = release emptyState :=
  (claim5_amended_falsy_config_quiescent ⟨true, none⟩ day2Times pastTimes pastTimes 100
    emptyState (Or.inr rfl)).1

/-- Claim C3: a day yields exactly when at least one of its two instants
is armed (is strictly future), and the configured scheduler stops at the
first yielding day: the resulting state is the arming of that day alone,
with later days never consulted. -/
theorem claim3_stops_at_first_yielding_day (cfg : Config)
    (t0 t1 t2 : GetTimesResult) (now : Int) (s : ScheduleState)
    (hp : cfg.linkedPositionSensor = true) :
    ((doSunrise now t0 s).2 = true ↔ (t0.sunrise > now ∨ t0.sunriseEnd > now)) ∧
    ((doSunset now t0 s).2 = true ↔ (t0.sunsetStart > now ∨ t0.sunset > now)) ∧
    (cfg.mode = some "sunrise" →
      ((doSunrise now t0 (armBase s)).2 = true →
        setupSensor cfg t0 t1 t2 now s = (doSunrise now t0 (armBase s)).1) ∧
      ((doSunrise now t0 (armBase s)).2 = false →
        (doSunrise now t1 (armBase s)).2 = true →
        setupSensor cfg t0 t1 t2 now s = (doSunrise now t1 (armBase s)).1) ∧
      ((doSunrise now t0 (armBase s)).2 = false →
        (doSunrise now t1 (armBase s)).2 = false →
        setupSensor cfg t0 t1 t2 now s = (doSunrise now t2 (armBase s)).1)) ∧
    (cfg.mode = some "sunset" →
      ((doSunset now t0 (armBase s)).2 = true →
        setupSensor cfg t0 t1 t2 now s = (doSunset now t0 (armBase s)).1) ∧
      ((doSunset now t0 (armBase s)).2 = false →
        (doSunset now t1 (armBase s)).2 = true →
        setupSensor cfg t0 t1 t2 now s = (doSunset now t1 (armBase s)).1) ∧
      ((doSunset now t0 (armBase s)).2 = false →
        (doSunset now t1 (armBase s)).2 = false →
        setupSensor cfg t0 t1 t2 now s = (doSunrise now t2 (armBase s)).1)) := by
  refine ⟨?_, ?_, ?_, ?_⟩
  · rw [doSunrise_snd]
    simp
  · rw [doSunset_snd]
    simp
  · intro hm
    have hbase : { release s with positionListener := true } = armBase s := by
      rw [release_eq]; rfl
    refine ⟨?_, ?_, ?_⟩
    · intro h0
      simp only [setupSensor, hp, hm, hbase, Bool.not_true, h0]
      simp +decide
    · intro h0 h1
      simp only [setupSensor, hp, hm, hbase, Bool.not_true, h0,
        doSunrise_not_yield now t0 _ h0, h1]
      simp +decide
    · intro h0 h1
      simp only [setupSensor, hp, hm, hbase, Bool.not_true, h0,
        doSunrise_not_yield now t0 _ h0, h1, doSunrise_not_yield now t1 _ h1]
      simp +decide
  · intro hm
    have hbase : { release s with positionListener := true } = armBase s := by
      rw [release_eq]; rfl
    refine ⟨?_, ?_, ?_⟩
    · intro h0
      simp only [setupSensor, hp, hm, hbase, Bool.not_true, h0]
      simp +decide
    · intro h0 h1
      simp only [setupSensor, hp, hm, hbase, Bool.not_true, h0,
        doSunset_not_yield now t0 _ h0, h1]
      simp +decide
    · intro h0 h1
      simp only [setupSensor, hp, hm, hbase, Bool.not_true, h0,
        doSunset_not_yield now t0 _ h0, h1, doSunset_not_yield now t1 _ h1]
      simp +decide

/-- Witness for claim C3: with the first day yielding, the armed state is
exactly the arming of the first day, independent of the later days. -/
theorem claim3_witness :
    setupSensor cfgSunrise day2Times pastTimes pastTimes 100 emptyState
      = (doSunrise 100 day2Times (armBase emptyState)).1 :=
  ((claim3_stops_at_first_yielding_day cfgSunrise day2Times pastTimes pastTimes 100
    emptyState rfl).2.2.1 rfl).1 (by decide)

/-- Claim C1, evaluated on the code at the failing input: in sunset mode,
with the first two days fully in the past and the third day fully in the
future, line 72 of main.ts arms the third day with the sunrise routine,
so the armed instants are the sunrise pair, not the sunset pair the spec
requires. -/
theorem claim1_third_day_fallback_arms_sunrise_pair :
    (setupSensor cfgSunset pastTimes pastTimes day2Times 100 emptyState).startTimeout
        = some day2Times.sunrise ∧
    (setupSensor cfgSunset pastTimes pastTimes day2Times 100 emptyState).endTimeout
        = some day2Times.sunriseEnd ∧
    (setupSensor cfgSunset pastTimes pastTimes day2Times 100 emptyState).startTimeout
        ≠ some day2Times.sunsetStart ∧
    (setupSensor cfgSunset pastTimes pastTimes day2Times 100 emptyState).endTimeout
        ≠ some day2Times.sunset := by
  decide
